import Mathlib

/-!
Shallow embedding of `src/assets/blender_ai/table.py` (and the scene helpers
it uses from `src/assets/blender_ai/blender_utils.py`).

Modelling conventions:
* Python floats are modelled as real numbers (`ℝ`); the source's numeric
  tolerances (`1e-3`, `1e-6`, ...) are kept verbatim.
* A mesh is its list of vertices (local coordinates).  Polygon data is never
  inspected by the builder or the validator, so it is not modelled.
* `create_cube` (from `blender_utils.py`) creates a unit cube at a location and
  sets `obj.scale = dimensions`; `_apply_scale` then bakes the scale into the
  vertex coordinates.  `cubeMesh` below is the resulting vertex list, with
  vertices at `±dimension/2` on each axis.
* An `Obj` stores its *world* transform (location, Euler XYZ rotation) plus a
  parent pointer.  `_parent_keep_world` in the source reparents with
  `keep_transform=True`, which leaves the world transform unchanged, so
  reparenting in the model only sets the parent field.  `matrix_world` is the
  translation by `location` composed with the rotation (scales are baked).
-/

namespace Table

noncomputable section

abbrev Vec3 := ℝ × ℝ × ℝ

/-- The parameters of `create_low_poly_table` (the `bevel*` parameters only
attach cosmetic modifiers, which neither the validator nor any derived
quantity reads, so they are not modelled). -/
structure Params where
  top_width : ℝ
  top_depth : ℝ
  top_thickness : ℝ
  table_height : ℝ
  leg_thickness : ℝ
  inset : ℝ
  top_taper : ℝ
  leg_taper : ℝ
  leg_splay_deg : ℝ
  top_warp : ℝ

/-- The distinct `ValueError`s raised by `create_low_poly_table`'s parameter
validation, in source order (lines 179-200). -/
inductive BuildError
  | heightNotGreaterThanThickness
  | insetNegative
  | topTaperRange
  | legTaperRange
  | splayRange
  | warpTooLarge
  | maxInsetNonpositive
  | insetTooLarge
deriving DecidableEq, Repr

/-- Python's `min` over a nonempty list (the source never calls it on an empty
list; the `[]` default is never reached by any mesh built here). -/
def listMin : List ℝ → ℝ
  | [] => 0
  | a :: l => l.foldl min a

/-- Python's `max` over a nonempty list. -/
def listMax : List ℝ → ℝ
  | [] => 0
  | a :: l => l.foldl max a

def xs (m : List Vec3) : List ℝ := m.map fun v => v.1
def ys (m : List Vec3) : List ℝ := m.map fun v => v.2.1
def zs (m : List Vec3) : List ℝ := m.map fun v => v.2.2

/-- `_mesh_dims_local`: per-axis extents of the local vertex coordinates. -/
def meshDims (m : List Vec3) : Vec3 :=
  (listMax (xs m) - listMin (xs m),
   listMax (ys m) - listMin (ys m),
   listMax (zs m) - listMin (zs m))

/-- Vertices of `create_cube` after `_apply_scale`: a unit cube scaled to the
requested dimensions, so vertices sit at `±d/2` per axis (bottom four first,
then the top four). -/
def cubeMesh (dx dy dz : ℝ) : List Vec3 :=
  [(-(dx/2), -(dy/2), -(dz/2)), (dx/2, -(dy/2), -(dz/2)),
   (-(dx/2),  dy/2,  -(dz/2)), (dx/2,  dy/2,  -(dz/2)),
   (-(dx/2), -(dy/2),  dz/2),  (dx/2, -(dy/2),  dz/2),
   (-(dx/2),  dy/2,   dz/2),  (dx/2,  dy/2,   dz/2)]

/-- The per-vertex XY scale factor of `_taper_mesh_z`:
`s = bottom_scale + (top_scale - bottom_scale) * (z - z_min) / span` with
`span = max(z_max - z_min, 1e-8)`.  (The source computes `z_min`, `z_max`,
`span` once before the loop; they only depend on the mesh, as here.) -/
def taperScale (m : List Vec3) (bottomScale topScale z : ℝ) : ℝ :=
  bottomScale + (topScale - bottomScale) *
    ((z - listMin (zs m)) / max (listMax (zs m) - listMin (zs m)) 1e-8)

/-- `_taper_mesh_z`: scale each vertex's x and y by `taperScale` of its z. -/
def taperMeshZ (m : List Vec3) (bottomScale topScale : ℝ) : List Vec3 :=
  m.map fun v =>
    (v.1 * taperScale m bottomScale topScale v.2.2,
     v.2.1 * taperScale m bottomScale topScale v.2.2,
     v.2.2)

/-- `_warp_top_surface`: no-op when `|strength| <= 1e-9`; otherwise every
vertex within `1e-6` of the top z is displaced by `±strength`, the sign chosen
by the quadrant (`+` iff `x * y >= 0`). -/
def warpTopSurface (m : List Vec3) (strength : ℝ) : List Vec3 :=
  if |strength| ≤ 1e-9 then m
  else m.map fun v =>
    if |v.2.2 - listMax (zs m)| ≤ 1e-6 then
      (v.1, v.2.1, v.2.2 + (if 0 ≤ v.1 * v.2.1 then 1 else -1) * strength)
    else v

/-- `math.radians`. -/
def radians (d : ℝ) : ℝ := d * Real.pi / 180

/-- `math.copysign a b`: `|a|` carrying the sign of `b` (reals have no signed
zero, so `b = 0` gives `|a|`, matching Python's `+0.0`). -/
def copysign (a b : ℝ) : ℝ := if b < 0 then -|a| else |a|

/-- `_leg_splay_rotation`. -/
def legSplayRotation (x y splayDeg : ℝ) : Vec3 :=
  (copysign (radians splayDeg) y, copysign (radians splayDeg) x, 0)

/-- A scene object: mesh plus world transform and parent pointer (see the
module comment for why the stored transform is the world one). -/
structure Obj where
  name : String
  mesh : List Vec3
  location : Vec3
  rotation : Vec3
  parent : Option String

/-- Third row of the XYZ Euler rotation matrix `R = Rz * Ry * Rx`
(Blender's default Euler order); only this row enters world-Z queries. -/
def eulerRow3 (r : Vec3) : Vec3 :=
  (-(Real.sin r.2.1), Real.cos r.2.1 * Real.sin r.1, Real.cos r.2.1 * Real.cos r.1)

/-- z-coordinate of `matrix_world @ v` (translation ∘ rotation; scale baked). -/
def worldZ (o : Obj) (v : Vec3) : ℝ :=
  o.location.2.2 + (eulerRow3 o.rotation).1 * v.1
    + (eulerRow3 o.rotation).2.1 * v.2.1 + (eulerRow3 o.rotation).2.2 * v.2.2

/-- `obj.bound_box`: the 8 corners of the local axis-aligned bounding box. -/
def boundBoxCorners (o : Obj) : List Vec3 :=
  [(listMin (xs o.mesh), listMin (ys o.mesh), listMin (zs o.mesh)),
   (listMax (xs o.mesh), listMin (ys o.mesh), listMin (zs o.mesh)),
   (listMin (xs o.mesh), listMax (ys o.mesh), listMin (zs o.mesh)),
   (listMax (xs o.mesh), listMax (ys o.mesh), listMin (zs o.mesh)),
   (listMin (xs o.mesh), listMin (ys o.mesh), listMax (zs o.mesh)),
   (listMax (xs o.mesh), listMin (ys o.mesh), listMax (zs o.mesh)),
   (listMin (xs o.mesh), listMax (ys o.mesh), listMax (zs o.mesh)),
   (listMax (xs o.mesh), listMax (ys o.mesh), listMax (zs o.mesh))]

/-- `_bbox_world_z_extents`. -/
def bboxWorldZExtents (o : Obj) : ℝ × ℝ :=
  (listMin ((boundBoxCorners o).map (worldZ o)),
   listMax ((boundBoxCorners o).map (worldZ o)))

/-- Python's `round(x, 4)`.  (Ties round half away from 0 here vs. Python's
half-to-even; no quantity in this development ever lands on a tie.) -/
def round4 (x : ℝ) : ℝ := (round (x * 10000) : ℤ) / 10000

/-- The dictionary returned by `_compute_style_metrics`. -/
structure StyleMetrics where
  top_width : ℝ
  top_depth : ℝ
  top_aspect_ratio : ℝ
  leg_thickness_ratio : ℝ
  inset_ratio : ℝ
  non_boxy_feature_count : ℕ
  non_boxy_score : ℝ

/-- `_compute_style_metrics`. -/
def computeStyleMetrics (p : Params) : StyleMetrics :=
  { top_width := round4 p.top_width
    top_depth := round4 p.top_depth
    top_aspect_ratio := round4 (p.top_width / max p.top_depth 1e-8)
    leg_thickness_ratio := round4 (p.leg_thickness / min p.top_width p.top_depth)
    inset_ratio := round4 (p.inset / min p.top_width p.top_depth)
    non_boxy_feature_count :=
      (if p.leg_splay_deg ≥ 3.0 then 1 else 0) + (if p.top_taper ≤ 0.95 then 1 else 0)
        + (if p.leg_taper ≤ 0.9 then 1 else 0) + (if |p.top_warp| > 0 then 1 else 0)
    non_boxy_score :=
      round4 ((((if p.leg_splay_deg ≥ 3.0 then 1 else 0) + (if p.top_taper ≤ 0.95 then 1 else 0)
        + (if p.leg_taper ≤ 0.9 then 1 else 0) + (if |p.top_warp| > 0 then 1 else 0) : ℕ) : ℝ) / 4.0) }

/-- `max_inset = (min(top_width, top_depth) - leg_thickness) / 2` (line 194). -/
def maxInset (p : Params) : ℝ := (min p.top_width p.top_depth - p.leg_thickness) / 2

/-- The parameter-validation chain of `create_low_poly_table`
(lines 179-200), returning the first error raised, if any. -/
def paramCheck (p : Params) : Option BuildError :=
  if p.table_height ≤ p.top_thickness then some .heightNotGreaterThanThickness
  else if p.inset < 0 then some .insetNegative
  else if ¬ (0.6 ≤ p.top_taper ∧ p.top_taper ≤ 1) then some .topTaperRange
  else if ¬ (0.6 ≤ p.leg_taper ∧ p.leg_taper ≤ 1) then some .legTaperRange
  else if ¬ (0 ≤ p.leg_splay_deg ∧ p.leg_splay_deg ≤ 20) then some .splayRange
  else if |p.top_warp| > p.top_thickness * 0.45 then some .warpTooLarge
  else if maxInset p ≤ 0 then some .maxInsetNonpositive
  else if p.inset > maxInset p then some .insetTooLarge
  else none

/-- `leg_height = table_height - top_thickness` (line 192). -/
def legHeight (p : Params) : ℝ := p.table_height - p.top_thickness

/-- `projected_factor = max(cos(splay_rad)^2, 1e-5)` (line 205). -/
def projectedFactor (p : Params) : ℝ :=
  max (Real.cos (radians p.leg_splay_deg) * Real.cos (radians p.leg_splay_deg)) 1e-5

/-- `leg_mesh_height = leg_height / projected_factor` (line 206). -/
def legMeshHeightP (p : Params) : ℝ := legHeight p / projectedFactor p

/-- Tabletop mesh: cuboid, tapered from `top_taper` at the bottom to `1.0` at
the top, then warped (lines 212-220). -/
def topMesh (p : Params) : List Vec3 :=
  warpTopSurface
    (taperMeshZ (cubeMesh p.top_width p.top_depth p.top_thickness) p.top_taper 1.0)
    p.top_warp

/-- The `TableTop` object, placed at `z = table_height - top_thickness/2`. -/
def topObj (p : Params) : Obj :=
  { name := "TableTop"
    mesh := topMesh p
    location := (0, 0, p.table_height - p.top_thickness / 2)
    rotation := (0, 0, 0)
    parent := none }

/-- Template leg mesh: cuboid tapered from full width at the floor to
`leg_taper` at the top (lines 223-230); each leg copies this mesh. -/
def legTemplateMesh (p : Params) : List Vec3 :=
  taperMeshZ (cubeMesh p.leg_thickness p.leg_thickness (legMeshHeightP p)) 1.0 p.leg_taper

/-- `offset_x = top_width * 0.5 - inset - leg_thickness * 0.5` (line 233);
the validator recomputes the identical formula (line 364). -/
def offsetX (p : Params) : ℝ := p.top_width * 0.5 - p.inset - p.leg_thickness * 0.5

/-- `offset_y` (line 234 / 365). -/
def offsetY (p : Params) : ℝ := p.top_depth * 0.5 - p.inset - p.leg_thickness * 0.5

/-- One leg: template mesh copy, moved to its anchor, splay-rotated, and
parented (keeping world transform) to the tabletop.  `i` is the 1-based index
used in the `f"TableLeg.{i:03d}"` name (always a single digit here). -/
def mkLeg (p : Params) (i : Nat) (xy : ℝ × ℝ) : Obj :=
  { name := "TableLeg.00" ++ toString i
    mesh := legTemplateMesh p
    location := (xy.1, xy.2, legHeight p / 2)
    rotation := legSplayRotation xy.1 xy.2 p.leg_splay_deg
    parent := some "TableTop" }

/-- The four legs, in the fixed generation order of `leg_positions`
(lines 236-241): `(+,+), (+,-), (-,+), (-,-)`. -/
def legObjs (p : Params) : List Obj :=
  [mkLeg p 1 (offsetX p, offsetY p),
   mkLeg p 2 (offsetX p, -offsetY p),
   mkLeg p 3 (-offsetX p, offsetY p),
   mkLeg p 4 (-offsetX p, -offsetY p)]

/-- The tuple returned by `create_low_poly_table` on success. -/
structure Assembly where
  tableTop : Obj
  legs : List Obj
  leg_height : ℝ
  leg_mesh_height : ℝ
  metrics : StyleMetrics

/-- The success path of `create_low_poly_table` (lines 202-282). -/
def buildAssembly (p : Params) : Assembly :=
  { tableTop := topObj p
    legs := legObjs p
    leg_height := legHeight p
    leg_mesh_height := legMeshHeightP p
    metrics := computeStyleMetrics p }

/-! ### Scene model

`bpy.data.objects` is modelled as a list of objects tagged with their
collection name.  The builder's scene effects, in source order: the parameter
checks (no scene access), `_remove_startup_cube`, `clear_collection`, then the
creation of the new objects. -/

structure SceneEntry where
  obj : Obj
  collection : String

/-- `_remove_startup_cube`: drop the object only if it matches the Blender
startup-cube signature (name, 8 vertices, at origin, 2×2×2 dimensions). -/
def removeStartupCube (s : List SceneEntry) : List SceneEntry :=
  s.filter fun e =>
    ¬ (e.obj.name = "Cube" ∧ e.obj.mesh.length = 8
        ∧ Real.sqrt (e.obj.location.1 ^ 2 + e.obj.location.2.1 ^ 2 + e.obj.location.2.2 ^ 2) ≤ 1e-6
        ∧ |(meshDims e.obj.mesh).1 - 2| < 1e-5 ∧ |(meshDims e.obj.mesh).2.1 - 2| < 1e-5
        ∧ |(meshDims e.obj.mesh).2.2 - 2| < 1e-5)

/-- `clear_collection`: remove every object of the named collection. -/
def clearCollection (name : String) (s : List SceneEntry) : List SceneEntry :=
  s.filter fun e => e.collection ≠ name

/-- `create_low_poly_table` acting on a scene: all parameter checks run before
any scene mutation (raises on lines 179-200 precede the first scene access on
line 202), so an error leaves the scene exactly as it was. -/
def runBuild (p : Params) (s : List SceneEntry) : List SceneEntry × Except BuildError Assembly :=
  match paramCheck p with
  | some e => (s, .error e)
  | none =>
      let a := buildAssembly p
      ((clearCollection "LLM_Table" (removeStartupCube s))
          ++ ⟨a.tableTop, "LLM_Table"⟩ :: a.legs.map (⟨·, "LLM_Table"⟩),
       .ok a)

/-! ### Validator (`validate_table`, lines 322-429) -/

/-- The distinct issue kinds `validate_table` can append (its messages also
interpolate measured values; only the kind matters to the claims). -/
inductive Issue
  | legCount
  | topLocalXY
  | topLocalZ
  | topZ
  | legLocalXY
  | legLocalZ
  | legGround
  | legTopTouch
  | legParent
  | legCorners
  | legRatio
  | insetRatio
  | splayRule
  | noSignal
deriving DecidableEq, Repr

/-- `close(a, b, tol=eps)` with `eps = 1e-3`. -/
def close (a b : ℝ) (tol : ℝ := 1e-3) : Prop := |a - b| ≤ tol

instance (a b tol : ℝ) : Decidable (close a b tol) :=
  inferInstanceAs (Decidable (|a - b| ≤ tol))

/-- `z_touch_tolerance = max(5e-3, leg_thickness * sin(radians(|splay|)) * 1.2)`
(lines 374-376). -/
def zTouchTolerance (p : Params) : ℝ :=
  max 5e-3 (p.leg_thickness * Real.sin (radians |p.leg_splay_deg|) * 1.2)

def validateLegCount (legs : List Obj) : List Issue :=
  if legs.length ≠ 4 then [.legCount] else []

def validateTopLocalXY (top : Obj) (p : Params) : List Issue :=
  if ¬ close (meshDims top.mesh).1 p.top_width ∨ ¬ close (meshDims top.mesh).2.1 p.top_depth
  then [.topLocalXY] else []

/-- The tabletop local-Z check: expected `top_thickness + max(0, top_warp)`
(lines 348, 353-356). -/
def validateTopLocalZ (top : Obj) (p : Params) : List Issue :=
  if ¬ close (meshDims top.mesh).2.2 (p.top_thickness + max 0 p.top_warp)
  then [.topLocalZ] else []

def validateTopZ (top : Obj) (p : Params) : List Issue :=
  if ¬ close top.location.2.2 (p.table_height - p.top_thickness / 2)
  then [.topZ] else []

/-- The in-loop checks for one leg (lines 378-397). -/
def validateLeg (p : Params) (legMeshHeight : ℝ) (topName : String) (leg : Obj) : List Issue :=
  (if ¬ close (meshDims leg.mesh).1 p.leg_thickness
      ∨ ¬ close (meshDims leg.mesh).2.1 p.leg_thickness
   then [.legLocalXY] else [])
  ++ (if ¬ close (meshDims leg.mesh).2.2 legMeshHeight then [.legLocalZ] else [])
  ++ (if ¬ close (bboxWorldZExtents leg).1 0 (zTouchTolerance p) then [.legGround] else [])
  ++ (if ¬ close (bboxWorldZExtents leg).2 (p.table_height - p.top_thickness) (zTouchTolerance p)
      then [.legTopTouch] else [])
  ++ (if leg.parent ≠ some topName then [.legParent] else [])

/-- A leg's world XY, rounded to 4 decimals (line 399-400). -/
def legWorldXY (leg : Obj) : ℝ × ℝ := (round4 leg.location.1, round4 leg.location.2.1)

/-- `expected_xy_rounded` (lines 364-371, 402). -/
def expectedXY (p : Params) : List (ℝ × ℝ) :=
  [(round4 (offsetX p), round4 (offsetY p)),
   (round4 (offsetX p), round4 (-offsetY p)),
   (round4 (-offsetX p), round4 (offsetY p)),
   (round4 (-offsetX p), round4 (-offsetY p))]

/-- Python `set` equality: same members. -/
def listSetEq (A B : List (ℝ × ℝ)) : Prop := (∀ v ∈ A, v ∈ B) ∧ (∀ v ∈ B, v ∈ A)

instance (A B : List (ℝ × ℝ)) : Decidable (listSetEq A B) :=
  inferInstanceAs (Decidable (_ ∧ _))

/-- The unordered comparison `actual_xy != expected_xy_rounded` (line 403). -/
def validateCorners (legs : List Obj) (p : Params) : List Issue :=
  if ¬ listSetEq (legs.map legWorldXY) (expectedXY p) then [.legCorners] else []

/-- The final "no taper/warp signal" rule (lines 424-427). -/
def validateNoSignal (p : Params) : List Issue :=
  if 0.95 < p.top_taper ∧ 0.9 < p.leg_taper ∧ |p.top_warp| ≤ 1e-9
  then [.noSignal] else []

/-- The style/readability checks (lines 408-427), in source order. -/
def validateStyle (p : Params) : List Issue :=
  (if ¬ (0.06 ≤ p.leg_thickness / min p.top_width p.top_depth
          ∧ p.leg_thickness / min p.top_width p.top_depth ≤ 0.16)
   then [.legRatio] else [])
  ++ (if ¬ (0.04 ≤ p.inset / min p.top_width p.top_depth
          ∧ p.inset / min p.top_width p.top_depth ≤ 0.20)
      then [.insetRatio] else [])
  ++ (if p.leg_splay_deg < 3.0 then [.splayRule] else [])
  ++ validateNoSignal p

/-- `validate_table`: all checks in source order, accumulating issues. -/
def validateTable (top : Obj) (legs : List Obj) (p : Params) (legMeshHeight : ℝ) : List Issue :=
  validateLegCount legs
  ++ validateTopLocalXY top p
  ++ validateTopLocalZ top p
  ++ validateTopZ top p
  ++ (legs.map (validateLeg p legMeshHeight top.name)).flatten
  ++ validateCorners legs p
  ++ validateStyle p

/-- The spec's parameter domain: positive lengths (spec §3) together with the
code's own validation passing. -/
def Valid (p : Params) : Prop :=
  0 < p.top_width ∧ 0 < p.top_depth ∧ 0 < p.top_thickness ∧ 0 < p.leg_thickness ∧
    paramCheck p = none

/-! ### Concrete parameter sets used by the claims -/

/-- Scenario A of the spec (§8): the builder's documented showcase set. -/
def pA : Params := ⟨1.2, 1.2, 0.08, 0.75, 0.10, 0.08, 0.9, 0.82, 5.0, 0.008⟩

/-- Scenario B of the spec (§8): scenario A with `leg_splay_deg = 0`,
`top_taper = 1.0`, `leg_taper = 1.0`, `top_warp = 0`. -/
def pB : Params := ⟨1.2, 1.2, 0.08, 0.75, 0.10, 0.08, 1.0, 1.0, 0.0, 0.0⟩

/-- Scenario C dimensions (§8): `top_width = top_depth = 0.5`,
`leg_thickness = 0.3`, the remaining parameters as in scenario A. -/
def pC (inset : ℝ) : Params := ⟨0.5, 0.5, 0.08, 0.75, 0.3, inset, 0.9, 0.82, 5.0, 0.008⟩

/-- Scenario A with a chosen splay (for the monotonicity claim). -/
def pS (s : ℝ) : Params := ⟨1.2, 1.2, 0.08, 0.75, 0.10, 0.08, 0.9, 0.82, s, 0.008⟩

/-- Scenario A with a chosen warp (for the warp claims). -/
def pW (w : ℝ) : Params := ⟨1.2, 1.2, 0.08, 0.75, 0.10, 0.08, 0.9, 0.82, 5.0, w⟩

/-! ### Basic lemmas -/

lemma paramCheck_eq_none_of (p : Params)
    (h1 : p.top_thickness < p.table_height) (h2 : 0 ≤ p.inset)
    (h3a : 0.6 ≤ p.top_taper) (h3b : p.top_taper ≤ 1)
    (h4a : 0.6 ≤ p.leg_taper) (h4b : p.leg_taper ≤ 1)
    (h5a : 0 ≤ p.leg_splay_deg) (h5b : p.leg_splay_deg ≤ 20)
    (h6 : |p.top_warp| ≤ p.top_thickness * 0.45)
    (h7 : 0 < maxInset p) (h8 : p.inset ≤ maxInset p) :
    paramCheck p = none := by
  unfold paramCheck
  rw [if_neg (not_le.mpr h1), if_neg (not_lt.mpr h2),
    if_neg (not_not_intro ⟨h3a, h3b⟩), if_neg (not_not_intro ⟨h4a, h4b⟩),
    if_neg (not_not_intro ⟨h5a, h5b⟩),
    if_neg (not_lt.mpr h6), if_neg (not_le.mpr h7), if_neg (not_lt.mpr h8)]

lemma of_paramCheck_eq_none {p : Params} (h : paramCheck p = none) :
    p.top_thickness < p.table_height ∧ 0 ≤ p.inset ∧
      (0.6 ≤ p.top_taper ∧ p.top_taper ≤ 1) ∧
      (0.6 ≤ p.leg_taper ∧ p.leg_taper ≤ 1) ∧
      (0 ≤ p.leg_splay_deg ∧ p.leg_splay_deg ≤ 20) ∧
      |p.top_warp| ≤ p.top_thickness * 0.45 ∧
      0 < maxInset p ∧ p.inset ≤ maxInset p := by
  have n1 : ¬ p.table_height ≤ p.top_thickness := by
    intro hc; rw [paramCheck, if_pos hc] at h; exact Option.some_ne_none _ h
  have n2 : ¬ p.inset < 0 := by
    intro hc; rw [paramCheck, if_neg n1, if_pos hc] at h; exact Option.some_ne_none _ h
  have n3 : 0.6 ≤ p.top_taper ∧ p.top_taper ≤ 1 := by
    by_contra hc
    rw [paramCheck, if_neg n1, if_neg n2, if_pos hc] at h; exact Option.some_ne_none _ h
  have n4 : 0.6 ≤ p.leg_taper ∧ p.leg_taper ≤ 1 := by
    by_contra hc
    rw [paramCheck, if_neg n1, if_neg n2, if_neg (not_not_intro n3), if_pos hc] at h
    exact Option.some_ne_none _ h
  have n5 : 0 ≤ p.leg_splay_deg ∧ p.leg_splay_deg ≤ 20 := by
    by_contra hc
    rw [paramCheck, if_neg n1, if_neg n2, if_neg (not_not_intro n3),
      if_neg (not_not_intro n4), if_pos hc] at h
    exact Option.some_ne_none _ h
  have n6 : ¬ |p.top_warp| > p.top_thickness * 0.45 := by
    intro hc
    rw [paramCheck, if_neg n1, if_neg n2, if_neg (not_not_intro n3),
      if_neg (not_not_intro n4), if_neg (not_not_intro n5), if_pos hc] at h
    exact Option.some_ne_none _ h
  have n7 : ¬ maxInset p ≤ 0 := by
    intro hc
    rw [paramCheck, if_neg n1, if_neg n2, if_neg (not_not_intro n3),
      if_neg (not_not_intro n4), if_neg (not_not_intro n5), if_neg n6, if_pos hc] at h
    exact Option.some_ne_none _ h
  have n8 : ¬ p.inset > maxInset p := by
    intro hc
    rw [paramCheck, if_neg n1, if_neg n2, if_neg (not_not_intro n3),
      if_neg (not_not_intro n4), if_neg (not_not_intro n5), if_neg n6, if_neg n7,
      if_pos hc] at h
    exact Option.some_ne_none _ h
  exact ⟨not_le.mp n1, not_lt.mp n2, n3, n4, n5, not_lt.mp n6, not_le.mp n7,
    not_lt.mp n8⟩

lemma maxInset_pA : maxInset pA = 0.55 := by
  norm_num [maxInset, pA, min_self]

lemma valid_pA : Valid pA := by
  refine ⟨by norm_num [pA], by norm_num [pA], by norm_num [pA], by norm_num [pA], ?_⟩
  refine paramCheck_eq_none_of pA ?_ ?_ ?_ ?_ ?_ ?_ ?_ ?_ ?_ ?_ ?_ <;>
    norm_num [pA, maxInset, min_self, abs_le]

lemma maxInset_pB : maxInset pB = 0.55 := by
  norm_num [maxInset, pB, min_self]

lemma paramCheck_pB : paramCheck pB = none := by
  refine paramCheck_eq_none_of pB ?_ ?_ ?_ ?_ ?_ ?_ ?_ ?_ ?_ ?_ ?_ <;>
    norm_num [pB, maxInset, min_self, abs_le]

lemma maxInset_pC (inset : ℝ) : maxInset (pC inset) = 0.1 := by
  norm_num [maxInset, pC, min_self]

lemma maxInset_pS (s : ℝ) : maxInset (pS s) = 0.55 := by
  norm_num [maxInset, pS, min_self]

lemma valid_pS {s : ℝ} (h0 : 0 ≤ s) (h20 : s ≤ 20) : Valid (pS s) := by
  refine ⟨by norm_num [pS], by norm_num [pS], by norm_num [pS], by norm_num [pS], ?_⟩
  refine paramCheck_eq_none_of (pS s) ?_ ?_ ?_ ?_ ?_ ?_ ?_ ?_ ?_ ?_ ?_ <;>
    simp only [pS] <;> first
      | assumption
      | norm_num [maxInset, min_self, abs_le]

/-- `max_inset` does not depend on `inset`. -/
lemma maxInset_setInset (p : Params) (x : ℝ) :
    maxInset {p with inset := x} = maxInset p := rfl

/-- Companion to `paramCheck_eq_none_of`: with every earlier check passing and
`inset > max_inset`, validation raises exactly the `inset is too large` error. -/
lemma paramCheck_eq_insetTooLarge_of (p : Params)
    (h1 : p.top_thickness < p.table_height) (h2 : 0 ≤ p.inset)
    (h3a : 0.6 ≤ p.top_taper) (h3b : p.top_taper ≤ 1)
    (h4a : 0.6 ≤ p.leg_taper) (h4b : p.leg_taper ≤ 1)
    (h5a : 0 ≤ p.leg_splay_deg) (h5b : p.leg_splay_deg ≤ 20)
    (h6 : |p.top_warp| ≤ p.top_thickness * 0.45)
    (h7 : 0 < maxInset p) (h8 : maxInset p < p.inset) :
    paramCheck p = some .insetTooLarge := by
  unfold paramCheck
  rw [if_neg (not_le.mpr h1), if_neg (not_lt.mpr h2),
    if_neg (not_not_intro ⟨h3a, h3b⟩), if_neg (not_not_intro ⟨h4a, h4b⟩),
    if_neg (not_not_intro ⟨h5a, h5b⟩),
    if_neg (not_lt.mpr h6), if_neg (not_le.mpr h7), if_pos h8]

/-! ### C2 -/

/-- C2 counterexample: with `top_width = top_depth = 0.5`, `leg_thickness = 0.3`
and the nonnegative inset `0.05` (other parameters as in scenario A),
`create_low_poly_table` raises no parameter error at all — in particular not
the `max_inset <= 0` one — because `max_inset = 0.1 > 0`. -/
theorem c2_maxinset_counterexample :
    maxInset (pC 0.05) = 0.1 ∧ paramCheck (pC 0.05) = none := by
  refine ⟨maxInset_pC 0.05, ?_⟩
  refine paramCheck_eq_none_of _ ?_ ?_ ?_ ?_ ?_ ?_ ?_ ?_ ?_ ?_ ?_ <;>
    norm_num [pC, maxInset, min_self, abs_le]

/-- C2 (amended): for `top_width = top_depth = 0.5`, `leg_thickness = 0.3`,
`max_inset` computes to `0.1 > 0`, so the `max_inset <= 0` error is never
raised; instead parameter validation passes for every `inset` in `[0, 0.1]`
and raises the `inset is too large` error for `inset > 0.1`. -/
theorem c2_scenarioC_amended (inset : ℝ) (h0 : 0 ≤ inset) :
    maxInset (pC inset) = 0.1 ∧
      (inset ≤ 0.1 → paramCheck (pC inset) = none) ∧
      (0.1 < inset → paramCheck (pC inset) = some .insetTooLarge) := by
  refine ⟨maxInset_pC inset, fun hle => ?_, fun hgt => ?_⟩
  · refine paramCheck_eq_none_of _ (by norm_num [pC]) (by simpa [pC] using h0)
      (by norm_num [pC]) (by norm_num [pC]) (by norm_num [pC]) (by norm_num [pC])
      (by norm_num [pC]) (by norm_num [pC]) (by norm_num [pC, abs_le])
      (by rw [maxInset_pC]; norm_num) ?_
    rw [maxInset_pC]
    simpa [pC] using hle
  · refine paramCheck_eq_insetTooLarge_of _ (by norm_num [pC]) (by simpa [pC] using h0)
      (by norm_num [pC]) (by norm_num [pC]) (by norm_num [pC]) (by norm_num [pC])
      (by norm_num [pC]) (by norm_num [pC]) (by norm_num [pC, abs_le])
      (by rw [maxInset_pC]; norm_num) ?_
    rw [maxInset_pC]
    simpa [pC] using hgt

/-- C2 amended, witnessed at `inset = 0.05`. -/
theorem c2_scenarioC_amended_witness :
    maxInset (pC 0.05) = 0.1 ∧
      ((0.05 : ℝ) ≤ 0.1 → paramCheck (pC 0.05) = none) ∧
      ((0.1 : ℝ) < 0.05 → paramCheck (pC 0.05) = some .insetTooLarge) :=
  c2_scenarioC_amended 0.05 (by norm_num)

/-! ### C7 -/

/-- C7: for every otherwise-valid parameter set, `inset = max_inset` exactly
passes parameter validation, while `inset = max_inset + 1e-6` fails with the
`inset is too large` error. -/
theorem c7_inset_boundary (p : Params)
    (h1 : p.top_thickness < p.table_height)
    (h3a : 0.6 ≤ p.top_taper) (h3b : p.top_taper ≤ 1)
    (h4a : 0.6 ≤ p.leg_taper) (h4b : p.leg_taper ≤ 1)
    (h5a : 0 ≤ p.leg_splay_deg) (h5b : p.leg_splay_deg ≤ 20)
    (h6 : |p.top_warp| ≤ p.top_thickness * 0.45)
    (h7 : 0 < maxInset p) :
    paramCheck {p with inset := maxInset p} = none ∧
      paramCheck {p with inset := maxInset p + 1e-6} = some .insetTooLarge :=
  ⟨paramCheck_eq_none_of _ h1 (le_of_lt h7) h3a h3b h4a h4b h5a h5b h6 h7 (le_refl _),
   paramCheck_eq_insetTooLarge_of _ h1 (by positivity) h3a h3b h4a h4b h5a h5b h6 h7
     (by rw [maxInset_setInset]; norm_num [lt_add_iff_pos_right])⟩

/-- C7 witnessed at scenario A's dimensions (`max_inset = 0.55`). -/
theorem c7_inset_boundary_witness :
    paramCheck {pA with inset := maxInset pA} = none ∧
      paramCheck {pA with inset := maxInset pA + 1e-6} = some .insetTooLarge :=
  c7_inset_boundary pA (by norm_num [pA]) (by norm_num [pA]) (by norm_num [pA])
    (by norm_num [pA]) (by norm_num [pA]) (by norm_num [pA]) (by norm_num [pA])
    (by norm_num [pA, abs_le]) (by rw [maxInset_pA]; norm_num)

/-! ### C8 -/

/-- C8: whenever parameter validation raises, the scene is returned exactly as
it was — no object is created, removed, modified, or cleared.  (In the source
every `raise` on lines 179-200 precedes the first scene access on line 202.) -/
theorem c8_param_error_atomicity (p : Params) (s : List SceneEntry) (e : BuildError)
    (h : paramCheck p = some e) : runBuild p s = (s, .error e) := by
  simp [runBuild, h]

/-- A parameter set failing validation (scenario A with `inset = -1`). -/
def pBad : Params := ⟨1.2, 1.2, 0.08, 0.75, 0.10, -1, 0.9, 0.82, 5.0, 0.008⟩

/-- A nonempty demo scene. -/
def sDemo : List SceneEntry := [⟨⟨"Thing", [], (0, 0, 0), (0, 0, 0), none⟩, "Misc"⟩]

/-- C8 witnessed: negative inset aborts and leaves the demo scene intact. -/
theorem c8_param_error_atomicity_witness :
    runBuild pBad sDemo = (sDemo, .error .insetNegative) :=
  c8_param_error_atomicity pBad sDemo .insetNegative (by
    unfold paramCheck
    rw [if_neg (by norm_num [pBad]), if_pos (by norm_num [pBad])])

/-! ### C9 -/

/-- C9: the build result (the assembly or the error) is a function of the
parameters alone — two invocations from any two starting scenes, in particular
two freshly cleared ones, produce identical assemblies (hence geometrically
identical within any tolerance): the builder has no other input. -/
theorem c9_deterministic_build (p : Params) (s₁ s₂ : List SceneEntry) :
    (runBuild p s₁).2 = (runBuild p s₂).2 := by
  cases h : paramCheck p <;> simp [runBuild, h]

/-! ### C10 -/

/-- C10: on `0 < |top_warp| <= 1e-9` the three warp-activity thresholds
disagree: `_warp_top_surface` is a no-op on every mesh (its cutoff is
`|strength| <= 1e-9`), yet `_compute_style_metrics` counts warp as an active
non-boxy feature (its test is `|top_warp| > 0`), while `validate_table`'s
"no taper/warp signal" rule treats the same warp exactly as it treats zero
warp (its test is `|top_warp| <= 1e-9`). -/
theorem c10_warp_threshold_disagreement (p : Params)
    (h1 : 0 < |p.top_warp|) (h2 : |p.top_warp| ≤ 1e-9) :
    (∀ m, warpTopSurface m p.top_warp = m) ∧
      (computeStyleMetrics p).non_boxy_feature_count
        = (computeStyleMetrics {p with top_warp := 0}).non_boxy_feature_count + 1 ∧
      validateNoSignal p = validateNoSignal {p with top_warp := 0} := by
  refine ⟨fun m => ?_, ?_, ?_⟩
  · unfold warpTopSurface
    rw [if_pos h2]
  · simp only [computeStyleMetrics]
    rw [if_pos h1, if_neg (show ¬ (|(0 : ℝ)| > 0) by norm_num)]
  · unfold validateNoSignal
    by_cases hc : 0.95 < p.top_taper ∧ 0.9 < p.leg_taper
    · rw [if_pos ⟨hc.1, hc.2, h2⟩, if_pos ⟨hc.1, hc.2, by norm_num⟩]
    · rw [if_neg fun hx => hc ⟨hx.1, hx.2.1⟩, if_neg fun hx => hc ⟨hx.1, hx.2.1⟩]

/-! ### Trigonometric facts about the splay range -/

lemma radians_nonneg {s : ℝ} (h : 0 ≤ s) : 0 ≤ radians s := by
  unfold radians
  have := Real.pi_pos
  nlinarith

lemma radians_mem_Icc {s : ℝ} (h0 : 0 ≤ s) (h20 : s ≤ 20) :
    radians s ∈ Set.Icc 0 Real.pi := by
  refine ⟨radians_nonneg h0, ?_⟩
  unfold radians
  have := Real.pi_pos
  nlinarith

lemma radians_lt_pi_div_three {s : ℝ} (h20 : s ≤ 20) : radians s < Real.pi / 3 := by
  unfold radians
  have := Real.pi_pos
  nlinarith

lemma radians_mono {a b : ℝ} (h : a < b) : radians a < radians b := by
  unfold radians
  nlinarith [mul_pos (sub_pos.mpr h) Real.pi_pos]

/-- On the whole admissible splay range `[0°, 20°]`, the cosine of the splay
angle stays above `1/2` (so `cos² > 1e-5`: the `projected_factor` clamp never
engages). -/
lemma cos_radians_gt_half {s : ℝ} (h0 : 0 ≤ s) (h20 : s ≤ 20) :
    1 / 2 < Real.cos (radians s) := by
  have hmem1 := radians_mem_Icc h0 h20
  have hmem2 : Real.pi / 3 ∈ Set.Icc 0 Real.pi := by
    constructor <;> nlinarith [Real.pi_pos]
  have h := Real.strictAntiOn_cos hmem1 hmem2 (radians_lt_pi_div_three h20)
  rwa [Real.cos_pi_div_three] at h

/-- On the admissible splay range, `projected_factor` is exactly `cos²`. -/
lemma projectedFactor_eq_cos_sq {p : Params}
    (h0 : 0 ≤ p.leg_splay_deg) (h20 : p.leg_splay_deg ≤ 20) :
    projectedFactor p
      = Real.cos (radians p.leg_splay_deg) * Real.cos (radians p.leg_splay_deg) := by
  unfold projectedFactor
  apply max_eq_left
  have := cos_radians_gt_half h0 h20
  nlinarith

/-! ### C4 -/

/-- C4: for every valid parameter set, `create_low_poly_table` returns
`leg_height = table_height - top_thickness` exactly, and
`leg_mesh_height >= leg_height` with equality iff `leg_splay_deg = 0`. -/
theorem c4_leg_height_relation (p : Params) (h : Valid p) :
    (buildAssembly p).leg_height = p.table_height - p.top_thickness ∧
      (buildAssembly p).leg_height ≤ (buildAssembly p).leg_mesh_height ∧
      ((buildAssembly p).leg_mesh_height = (buildAssembly p).leg_height ↔
        p.leg_splay_deg = 0) := by
  obtain ⟨-, -, -, -, hchk⟩ := h
  obtain ⟨hht, -, -, -, ⟨hs0, hs20⟩, -, -, -⟩ := of_paramCheck_eq_none hchk
  have hc := cos_radians_gt_half hs0 hs20
  have hc1 := Real.cos_le_one (radians p.leg_splay_deg)
  have hpf := projectedFactor_eq_cos_sq hs0 hs20
  have hlh : 0 < legHeight p := sub_pos.mpr hht
  have hccpos : 0 < Real.cos (radians p.leg_splay_deg) * Real.cos (radians p.leg_splay_deg) := by
    nlinarith
  simp only [buildAssembly]
  refine ⟨rfl, ?_, ?_, ?_⟩
  · rw [legMeshHeightP, hpf, le_div_iff₀ hccpos]
    have hccle : Real.cos (radians p.leg_splay_deg) * Real.cos (radians p.leg_splay_deg) ≤ 1 := by
      nlinarith
    nlinarith [mul_nonneg hlh.le (sub_nonneg.mpr hccle)]
  · intro heq
    rw [legMeshHeightP, hpf, div_eq_iff (ne_of_gt hccpos)] at heq
    have hcc1 : Real.cos (radians p.leg_splay_deg) * Real.cos (radians p.leg_splay_deg) = 1 := by
      have h1 : legHeight p * 1
          = legHeight p * (Real.cos (radians p.leg_splay_deg) * Real.cos (radians p.leg_splay_deg)) := by
        rw [mul_one]; exact heq
      exact (mul_left_cancel₀ (ne_of_gt hlh) h1).symm
    by_contra hne
    have hspos : 0 < p.leg_splay_deg := lt_of_le_of_ne hs0 (Ne.symm hne)
    have hrpos : 0 < radians p.leg_splay_deg := by
      unfold radians
      nlinarith [Real.pi_pos]
    have hmem0 : (0 : ℝ) ∈ Set.Icc 0 Real.pi := ⟨le_refl 0, Real.pi_pos.le⟩
    have hlt1 := Real.strictAntiOn_cos hmem0 (radians_mem_Icc hs0 hs20) hrpos
    rw [Real.cos_zero] at hlt1
    nlinarith
  · intro h0
    have hc1' : Real.cos (radians p.leg_splay_deg) = 1 := by
      rw [h0]
      unfold radians
      norm_num
    rw [legMeshHeightP, hpf, hc1']
    norm_num

/-- C4 witnessed at scenario A. -/
theorem c4_leg_height_relation_witness :
    Valid pA ∧
      ((buildAssembly pA).leg_height = pA.table_height - pA.top_thickness ∧
        (buildAssembly pA).leg_height ≤ (buildAssembly pA).leg_mesh_height ∧
        ((buildAssembly pA).leg_mesh_height = (buildAssembly pA).leg_height ↔
          pA.leg_splay_deg = 0)) :=
  ⟨valid_pA, c4_leg_height_relation pA valid_pA⟩

/-! ### C3 -/

lemma zTouch_pS_zero : zTouchTolerance (pS 0) = 5e-3 := by
  unfold zTouchTolerance
  rw [show |(pS 0).leg_splay_deg| = 0 by simp [pS],
    show radians 0 = 0 by unfold radians; norm_num, Real.sin_zero]
  rw [mul_zero, zero_mul]
  exact max_eq_left (by norm_num)

lemma zTouch_pS_one : zTouchTolerance (pS 1) = 5e-3 := by
  unfold zTouchTolerance
  rw [show |(pS 1).leg_splay_deg| = 1 by simp [pS]]
  have hrpos : 0 < radians 1 := by
    unfold radians
    nlinarith [Real.pi_pos]
  have hrsmall : radians 1 ≤ 0.0175 := by
    unfold radians
    nlinarith [Real.pi_lt_d2]
  have hs : Real.sin (radians 1) ≤ 0.0175 :=
    le_trans (le_of_lt (Real.sin_lt hrpos)) hrsmall
  refine max_eq_left ?_
  rw [show (pS 1).leg_thickness = 0.10 from rfl]
  nlinarith

/-- C3 counterexample: scenario A with splay `0°` versus splay `1°` — both
valid, the splay strictly larger, yet `z_touch_tolerance` is `5e-3` in both
cases (the `max(5e-3, ...)` floor dominates), so it does not strictly
increase. -/
theorem c3_zTouch_counterexample :
    Valid (pS 0) ∧ Valid (pS 1) ∧ (pS 0).leg_splay_deg < (pS 1).leg_splay_deg ∧
      ¬ zTouchTolerance (pS 0) < zTouchTolerance (pS 1) := by
  refine ⟨valid_pS le_rfl (by norm_num), valid_pS (by norm_num) (by norm_num),
    by norm_num [pS], ?_⟩
  rw [zTouch_pS_zero, zTouch_pS_one]
  exact lt_irrefl _

/-- C3 (amended): increasing `leg_splay_deg` (all else fixed, both parameter
sets valid) strictly increases `leg_mesh_height`; `z_touch_tolerance` is
nondecreasing, and strictly increases only once
`leg_thickness * sin(radians(splay)) * 1.2` exceeds the `5e-3` floor. -/
theorem c3_splay_monotonicity_amended (p : Params) (s₂ : ℝ)
    (h1 : Valid p) (h2 : Valid {p with leg_splay_deg := s₂})
    (hlt : p.leg_splay_deg < s₂) :
    legMeshHeightP p < legMeshHeightP {p with leg_splay_deg := s₂} ∧
      zTouchTolerance p ≤ zTouchTolerance {p with leg_splay_deg := s₂} ∧
      (5e-3 < p.leg_thickness * Real.sin (radians |s₂|) * 1.2 →
        zTouchTolerance p < zTouchTolerance {p with leg_splay_deg := s₂}) := by
  obtain ⟨-, -, -, hltpos, hchk1⟩ := h1
  obtain ⟨hht, -, -, -, ⟨hs10, hs120⟩, -, -, -⟩ := of_paramCheck_eq_none hchk1
  obtain ⟨-, -, -, -, hchk2⟩ := h2
  obtain ⟨-, -, -, -, ⟨hs20, hs220⟩, -, -, -⟩ := of_paramCheck_eq_none hchk2
  have hs20' : 0 ≤ s₂ := hs20
  have hs220' : s₂ ≤ 20 := hs220
  have hlh : 0 < legHeight p := sub_pos.mpr hht
  have hrlt : radians p.leg_splay_deg < radians s₂ := radians_mono hlt
  have hc1 := cos_radians_gt_half hs10 hs120
  have hc2 := cos_radians_gt_half hs20' hs220'
  have hcos_lt : Real.cos (radians s₂) < Real.cos (radians p.leg_splay_deg) :=
    Real.strictAntiOn_cos (radians_mem_Icc hs10 hs120) (radians_mem_Icc hs20' hs220') hrlt
  have hsin_lt : Real.sin (radians p.leg_splay_deg) < Real.sin (radians s₂) := by
    have hm1 : radians p.leg_splay_deg ∈ Set.Icc (-(Real.pi / 2)) (Real.pi / 2) := by
      obtain ⟨ha, hb⟩ := radians_mem_Icc hs10 hs120
      constructor <;> [linarith [Real.pi_pos]; skip]
      have := radians_lt_pi_div_three hs120
      nlinarith [Real.pi_pos]
    have hm2 : radians s₂ ∈ Set.Icc (-(Real.pi / 2)) (Real.pi / 2) := by
      obtain ⟨ha, hb⟩ := radians_mem_Icc hs20' hs220'
      constructor <;> [linarith [Real.pi_pos]; skip]
      have := radians_lt_pi_div_three hs220'
      nlinarith [Real.pi_pos]
    exact Real.strictMonoOn_sin hm1 hm2 hrlt
  have habs1 : |p.leg_splay_deg| = p.leg_splay_deg := abs_of_nonneg hs10
  have habs2 : |s₂| = s₂ := abs_of_nonneg hs20'
  refine ⟨?_, ?_, ?_⟩
  · have e2 : projectedFactor {p with leg_splay_deg := s₂}
        = Real.cos (radians s₂) * Real.cos (radians s₂) := by
      rw [projectedFactor_eq_cos_sq (p := {p with leg_splay_deg := s₂}) hs20 hs220]
    have elh : legMeshHeightP {p with leg_splay_deg := s₂}
        = legHeight p / projectedFactor {p with leg_splay_deg := s₂} := rfl
    rw [elh, e2, legMeshHeightP, projectedFactor_eq_cos_sq hs10 hs120]
    exact div_lt_div_of_pos_left hlh (by nlinarith) (by nlinarith)
  · unfold zTouchTolerance
    refine max_le_max (le_refl _) ?_
    rw [show ({p with leg_splay_deg := s₂} : Params).leg_thickness = p.leg_thickness from rfl,
      show ({p with leg_splay_deg := s₂} : Params).leg_splay_deg = s₂ from rfl,
      habs1, habs2]
    nlinarith
  · intro hfloor
    rw [habs2] at hfloor
    unfold zTouchTolerance
    rw [show ({p with leg_splay_deg := s₂} : Params).leg_thickness = p.leg_thickness from rfl,
      show ({p with leg_splay_deg := s₂} : Params).leg_splay_deg = s₂ from rfl,
      habs1, habs2]
    rw [max_eq_right (le_of_lt hfloor)]
    refine max_lt hfloor ?_
    nlinarith

/-- C3 amended, witnessed at scenario A with splays `0°` and `10°`. -/
theorem c3_splay_monotonicity_amended_witness :
    legMeshHeightP (pS 0) < legMeshHeightP {pS 0 with leg_splay_deg := 10} ∧
      zTouchTolerance (pS 0) ≤ zTouchTolerance {pS 0 with leg_splay_deg := 10} ∧
      (5e-3 < (pS 0).leg_thickness * Real.sin (radians |(10 : ℝ)|) * 1.2 →
        zTouchTolerance (pS 0) < zTouchTolerance {pS 0 with leg_splay_deg := 10}) :=
  c3_splay_monotonicity_amended (pS 0) 10 (valid_pS le_rfl (by norm_num))
    (show Valid {pS 0 with leg_splay_deg := 10} from valid_pS (by norm_num) (by norm_num))
    (by norm_num [pS])

/-! ### Mesh evaluation lemmas -/

lemma listMin_zs_cubeMesh (dx dy dz : ℝ) (h : 0 ≤ dz) :
    listMin (zs (cubeMesh dx dy dz)) = -(dz/2) := by
  have h1 : (-(dz/2) : ℝ) ≤ dz/2 := by linarith
  simp only [cubeMesh, zs, List.map, listMin, List.foldl]
  rw [min_self, min_self, min_self, min_eq_left h1, min_eq_left h1, min_eq_left h1,
    min_eq_left h1]

lemma listMax_zs_cubeMesh (dx dy dz : ℝ) (h : 0 ≤ dz) :
    listMax (zs (cubeMesh dx dy dz)) = dz/2 := by
  have h1 : (-(dz/2) : ℝ) ≤ dz/2 := by linarith
  simp only [cubeMesh, zs, List.map, listMax, List.foldl]
  rw [max_self, max_self, max_self, max_eq_right h1, max_self, max_self, max_self]

/-- With a nondegenerate height, the taper of a cube scales its bottom four
vertices by `bottomScale` and its top four by `topScale`. -/
lemma taperMeshZ_cubeMesh (dx dy dz b s : ℝ) (h8 : (1e-8 : ℝ) ≤ dz) (h0 : 0 < dz) :
    taperMeshZ (cubeMesh dx dy dz) b s =
      [(-(dx/2) * b, -(dy/2) * b, -(dz/2)), (dx/2 * b, -(dy/2) * b, -(dz/2)),
       (-(dx/2) * b, dy/2 * b, -(dz/2)), (dx/2 * b, dy/2 * b, -(dz/2)),
       (-(dx/2) * s, -(dy/2) * s, dz/2), (dx/2 * s, -(dy/2) * s, dz/2),
       (-(dx/2) * s, dy/2 * s, dz/2), (dx/2 * s, dy/2 * s, dz/2)] := by
  have hdz : dz ≠ 0 := ne_of_gt h0
  have hscale : ∀ z, taperScale (cubeMesh dx dy dz) b s z
      = b + (s - b) * ((z - -(dz/2)) / dz) := by
    intro z
    unfold taperScale
    rw [listMin_zs_cubeMesh dx dy dz h0.le, listMax_zs_cubeMesh dx dy dz h0.le,
      show dz/2 - -(dz/2) = dz by ring, max_eq_left h8]
  have hb : b + (s - b) * ((-(dz/2) - -(dz/2)) / dz) = b := by
    rw [show (-(dz/2) - -(dz/2) : ℝ) = 0 by ring, zero_div, mul_zero, add_zero]
  have ht : b + (s - b) * ((dz/2 - -(dz/2)) / dz) = s := by
    rw [show (dz/2 - -(dz/2) : ℝ) = dz by ring, div_self hdz]
    ring
  unfold taperMeshZ
  simp only [hscale]
  simp only [cubeMesh, List.map]
  simp only [hb, ht]

/-- With `1e-6 < dz` and an effective warp, warping the tapered cube moves
exactly the four top vertices, two up and two down by the warp strength
(diagonal corners share the sign of `x*y`). -/
lemma warpTopSurface_tapered_cube (dx dy dz b s w : ℝ)
    (hdx : 0 < dx) (hdy : 0 < dy) (hs : 0 < s) (hz : (1e-6 : ℝ) < dz)
    (hw : (1e-9 : ℝ) < |w|) :
    warpTopSurface
      [(-(dx/2) * b, -(dy/2) * b, -(dz/2)), (dx/2 * b, -(dy/2) * b, -(dz/2)),
       (-(dx/2) * b, dy/2 * b, -(dz/2)), (dx/2 * b, dy/2 * b, -(dz/2)),
       (-(dx/2) * s, -(dy/2) * s, dz/2), (dx/2 * s, -(dy/2) * s, dz/2),
       (-(dx/2) * s, dy/2 * s, dz/2), (dx/2 * s, dy/2 * s, dz/2)] w =
      [(-(dx/2) * b, -(dy/2) * b, -(dz/2)), (dx/2 * b, -(dy/2) * b, -(dz/2)),
       (-(dx/2) * b, dy/2 * b, -(dz/2)), (dx/2 * b, dy/2 * b, -(dz/2)),
       (-(dx/2) * s, -(dy/2) * s, dz/2 + w), (dx/2 * s, -(dy/2) * s, dz/2 - w),
       (-(dx/2) * s, dy/2 * s, dz/2 - w), (dx/2 * s, dy/2 * s, dz/2 + w)] := by
  unfold warpTopSurface
  rw [if_neg (not_le.mpr hw)]
  have hzmax : listMax (zs
      [((-(dx/2) * b : ℝ), (-(dy/2) * b : ℝ), (-(dz/2) : ℝ)), (dx/2 * b, -(dy/2) * b, -(dz/2)),
       (-(dx/2) * b, dy/2 * b, -(dz/2)), (dx/2 * b, dy/2 * b, -(dz/2)),
       (-(dx/2) * s, -(dy/2) * s, dz/2), (dx/2 * s, -(dy/2) * s, dz/2),
       (-(dx/2) * s, dy/2 * s, dz/2), (dx/2 * s, dy/2 * s, dz/2)]) = dz/2 := by
    have h1 : (-(dz/2) : ℝ) ≤ dz/2 := by linarith
    simp only [zs, List.map, listMax, List.foldl]
    rw [max_self, max_self, max_self, max_eq_right h1, max_self, max_self, max_self]
  rw [hzmax]
  simp only [List.map]
  have hbot : ¬ (|(-(dz/2) : ℝ) - dz/2| ≤ 1e-6) := by
    rw [show (-(dz/2) : ℝ) - dz/2 = -dz by ring, abs_neg, abs_of_pos (by linarith)]
    linarith
  have htop : |(dz/2 : ℝ) - dz/2| ≤ 1e-6 := by
    rw [sub_self, abs_zero]
    norm_num
  simp only [if_neg hbot, if_pos htop]
  have hprod : 0 < dx * dy * (s * s) :=
    mul_pos (mul_pos hdx hdy) (mul_pos hs hs)
  have hpp : 0 ≤ (-(dx/2) * s) * (-(dy/2) * s) := by nlinarith
  have hpn : ¬ (0 ≤ (dx/2 * s) * (-(dy/2) * s)) := not_le.mpr (by nlinarith)
  have hnp : ¬ (0 ≤ (-(dx/2) * s) * (dy/2 * s)) := not_le.mpr (by nlinarith)
  have hnn : 0 ≤ (dx/2 * s) * (dy/2 * s) := by nlinarith
  rw [if_pos hpp, if_neg hpn, if_neg hnp, if_pos hnn]
  norm_num [sub_eq_add_neg]

/-! ### Tabletop local-Z extent (C1) -/

lemma topMesh_noWarp (p : Params) (hw : |p.top_warp| ≤ 1e-9) :
    topMesh p = taperMeshZ (cubeMesh p.top_width p.top_depth p.top_thickness) p.top_taper 1.0 := by
  unfold topMesh warpTopSurface
  rw [if_pos hw]

lemma zs_topMesh_noWarp (p : Params) (hw : |p.top_warp| ≤ 1e-9)
    (h8 : (1e-8 : ℝ) ≤ p.top_thickness) (h0 : 0 < p.top_thickness) :
    zs (topMesh p) =
      [-(p.top_thickness/2), -(p.top_thickness/2), -(p.top_thickness/2), -(p.top_thickness/2),
       p.top_thickness/2, p.top_thickness/2, p.top_thickness/2, p.top_thickness/2] := by
  rw [topMesh_noWarp p hw, taperMeshZ_cubeMesh _ _ _ _ _ h8 h0]
  simp [zs]

/-- Without an effective warp the tabletop's local Z extent is exactly
`top_thickness`. -/
lemma topExtent_noWarp (p : Params) (hw : |p.top_warp| ≤ 1e-9)
    (h8 : (1e-8 : ℝ) ≤ p.top_thickness) (h0 : 0 < p.top_thickness) :
    (meshDims (topMesh p)).2.2 = p.top_thickness := by
  have hzs := zs_topMesh_noWarp p hw h8 h0
  have h1 : (-(p.top_thickness/2) : ℝ) ≤ p.top_thickness/2 := by linarith
  have hmax : listMax (zs (topMesh p)) = p.top_thickness/2 := by
    rw [hzs]
    simp only [listMax, List.foldl]
    rw [max_self, max_self, max_self, max_eq_right h1, max_self, max_self, max_self]
  have hmin : listMin (zs (topMesh p)) = -(p.top_thickness/2) := by
    rw [hzs]
    simp only [listMin, List.foldl]
    rw [min_self, min_self, min_self, min_eq_left h1, min_eq_left h1, min_eq_left h1,
      min_eq_left h1]
  show listMax (zs (topMesh p)) - listMin (zs (topMesh p)) = p.top_thickness
  rw [hmax, hmin]
  ring

lemma zs_topMesh_warped (p : Params) (hdx : 0 < p.top_width) (hdy : 0 < p.top_depth)
    (ht : (1e-6 : ℝ) < p.top_thickness) (hw : (1e-9 : ℝ) < |p.top_warp|) :
    zs (topMesh p) =
      [-(p.top_thickness/2), -(p.top_thickness/2), -(p.top_thickness/2), -(p.top_thickness/2),
       p.top_thickness/2 + p.top_warp, p.top_thickness/2 - p.top_warp,
       p.top_thickness/2 - p.top_warp, p.top_thickness/2 + p.top_warp] := by
  unfold topMesh
  rw [taperMeshZ_cubeMesh _ _ _ _ _ (by linarith) (by linarith),
    warpTopSurface_tapered_cube _ _ _ _ _ _ hdx hdy (by norm_num) ht hw]
  simp [zs]

/-- With an effective warp (positive or negative) the tabletop's local Z
extent is exactly `top_thickness + |top_warp|`: the sign alternation always
pushes two diagonal corners up by `|top_warp|`. -/
lemma topExtent_warped (p : Params) (hdx : 0 < p.top_width) (hdy : 0 < p.top_depth)
    (ht : (1e-6 : ℝ) < p.top_thickness) (hw : (1e-9 : ℝ) < |p.top_warp|)
    (hwb : |p.top_warp| ≤ p.top_thickness * 0.45) :
    (meshDims (topMesh p)).2.2 = p.top_thickness + |p.top_warp| := by
  have hzs := zs_topMesh_warped p hdx hdy ht hw
  have habs := abs_le.mp hwb
  have hA : (-(p.top_thickness/2) : ℝ) ≤ p.top_thickness/2 + p.top_warp := by linarith
  have hB : (-(p.top_thickness/2) : ℝ) ≤ p.top_thickness/2 - p.top_warp := by linarith
  have hmax : listMax (zs (topMesh p)) = p.top_thickness/2 + |p.top_warp| := by
    rw [hzs]
    simp only [listMax, List.foldl]
    rw [max_self, max_self, max_self, max_eq_right hA]
    rcases le_or_lt 0 p.top_warp with hp | hn
    · have hC : (p.top_thickness/2 - p.top_warp : ℝ) ≤ p.top_thickness/2 + p.top_warp := by
        linarith
      rw [max_eq_left hC, max_eq_left hC, max_self, abs_of_nonneg hp]
    · have hC : (p.top_thickness/2 + p.top_warp : ℝ) ≤ p.top_thickness/2 - p.top_warp := by
        linarith
      rw [max_eq_right hC, max_self, max_eq_left (by linarith), abs_of_neg hn]
      ring
  have hmin : listMin (zs (topMesh p)) = -(p.top_thickness/2) := by
    rw [hzs]
    simp only [listMin, List.foldl]
    rw [min_self, min_self, min_self, min_eq_left hA, min_eq_left hB, min_eq_left hB,
      min_eq_left hA]
  show listMax (zs (topMesh p)) - listMin (zs (topMesh p)) = p.top_thickness + |p.top_warp|
  rw [hmax, hmin]
  ring

/-! ### C1 -/

lemma valid_pW {w : ℝ} (hw : |w| ≤ 0.036) : Valid (pW w) := by
  refine ⟨by norm_num [pW], by norm_num [pW], by norm_num [pW], by norm_num [pW], ?_⟩
  refine paramCheck_eq_none_of (pW w) ?_ ?_ ?_ ?_ ?_ ?_ ?_ ?_ ?_ ?_ ?_ <;>
    simp only [pW] <;> first
      | (norm_num [maxInset, min_self]; done)
      | (norm_num; linarith)

/-- C1 counterexample: at scenario A with `top_warp = -0.008` (a valid set),
the built tabletop's local Z extent is `0.088 = top_thickness + |top_warp|`,
not `top_thickness + max(0, top_warp) = 0.08`; the difference `0.008` exceeds
the `1e-3` tolerance, so `validate_table`'s tabletop local-Z check *does*
report an issue. -/
theorem c1_negative_warp_counterexample :
    Valid (pW (-0.008)) ∧
      (meshDims (topMesh (pW (-0.008)))).2.2 = 0.088 ∧
      ¬ close (meshDims (topMesh (pW (-0.008)))).2.2
          ((pW (-0.008)).top_thickness + max 0 (pW (-0.008)).top_warp) ∧
      validateTopLocalZ (topObj (pW (-0.008))) (pW (-0.008)) = [Issue.topLocalZ] := by
  have habs : |(pW (-0.008)).top_warp| = 0.008 := by
    rw [show (pW (-0.008)).top_warp = -0.008 from rfl, abs_of_neg (by norm_num)]
    norm_num
  have hv : Valid (pW (-0.008)) := valid_pW (by
    rw [abs_of_neg (by norm_num : (-0.008 : ℝ) < 0)]
    norm_num)
  have hext : (meshDims (topMesh (pW (-0.008)))).2.2 = 0.088 := by
    rw [topExtent_warped (pW (-0.008)) (by norm_num [pW]) (by norm_num [pW])
      (by norm_num [pW]) (by rw [habs]; norm_num) (by rw [habs]; norm_num [pW]),
      habs, show (pW (-0.008)).top_thickness = 0.08 from rfl]
    norm_num
  have hncl : ¬ close (meshDims (topMesh (pW (-0.008)))).2.2
      ((pW (-0.008)).top_thickness + max 0 (pW (-0.008)).top_warp) := by
    unfold close
    rw [hext, show (pW (-0.008)).top_thickness = 0.08 from rfl,
      show (pW (-0.008)).top_warp = -0.008 from rfl,
      max_eq_left (by norm_num : (-0.008 : ℝ) ≤ 0),
      show (0.088 - (0.08 + 0) : ℝ) = 0.008 by norm_num,
      abs_of_pos (by norm_num : (0 : ℝ) < 0.008)]
    norm_num
  refine ⟨hv, hext, hncl, ?_⟩
  unfold validateTopLocalZ
  rw [show (topObj (pW (-0.008))).mesh = topMesh (pW (-0.008)) from rfl, if_pos hncl]

/-- C1 (amended): for every valid parameter set with `top_thickness > 1e-6`,
the tabletop's local Z extent equals `top_thickness` when `|top_warp| <= 1e-9`
(warp is a no-op) and `top_thickness + |top_warp|` otherwise — downward warp
increases the extent exactly like upward warp.  Consequently the validator's
tabletop local-Z check (expected `top_thickness + max(0, top_warp)`) adds no
issue iff `top_warp >= -1e-3`; for `top_warp < -1e-3` it reports a mismatch. -/
theorem c1_top_z_extent_amended (p : Params) (h : Valid p)
    (ht : (1e-6 : ℝ) < p.top_thickness) :
    ((|p.top_warp| ≤ 1e-9 → (meshDims (topMesh p)).2.2 = p.top_thickness) ∧
      (1e-9 < |p.top_warp| →
        (meshDims (topMesh p)).2.2 = p.top_thickness + |p.top_warp|)) ∧
      (validateTopLocalZ (topObj p) p = [] ↔ -1e-3 ≤ p.top_warp) := by
  obtain ⟨hdx, hdy, hdt, -, hchk⟩ := h
  obtain ⟨-, -, -, -, -, hwb, -, -⟩ := of_paramCheck_eq_none hchk
  have h8 : (1e-8 : ℝ) ≤ p.top_thickness := by linarith
  have hclose : close (meshDims (topMesh p)).2.2 (p.top_thickness + max 0 p.top_warp)
      ↔ -1e-3 ≤ p.top_warp := by
    unfold close
    rcases le_or_lt |p.top_warp| 1e-9 with hsw | hbw
    · have habs' := abs_le.mp hsw
      rw [topExtent_noWarp p hsw h8 hdt]
      constructor
      · intro _
        linarith
      · intro _
        rw [show p.top_thickness - (p.top_thickness + max 0 p.top_warp)
            = -(max 0 p.top_warp) by ring, abs_neg,
          abs_of_nonneg (le_max_left 0 p.top_warp)]
        exact le_trans (max_le (by norm_num) habs'.2) (by norm_num)
    · rw [topExtent_warped p hdx hdy ht hbw hwb]
      rcases le_or_lt 0 p.top_warp with hp | hn
      · rw [abs_of_nonneg hp, max_eq_right hp,
          show p.top_thickness + p.top_warp - (p.top_thickness + p.top_warp) = 0 by ring,
          abs_zero]
        constructor
        · intro _
          linarith
        · intro _
          norm_num
      · rw [abs_of_neg hn, max_eq_left (le_of_lt hn),
          show p.top_thickness + -p.top_warp - (p.top_thickness + 0) = -p.top_warp by ring,
          abs_of_pos (by linarith : (0 : ℝ) < -p.top_warp)]
        constructor
        · intro hc
          linarith
        · intro hge
          linarith
  refine ⟨⟨fun hw => topExtent_noWarp p hw h8 hdt,
    fun hw => topExtent_warped p hdx hdy ht hw hwb⟩, ?_⟩
  unfold validateTopLocalZ
  rw [show (topObj p).mesh = topMesh p from rfl]
  by_cases hcl : close (meshDims (topMesh p)).2.2 (p.top_thickness + max 0 p.top_warp)
  · rw [if_neg (not_not_intro hcl)]
    exact iff_of_true rfl (hclose.mp hcl)
  · rw [if_pos hcl]
    exact iff_of_false (by simp) fun hge => hcl (hclose.mpr hge)

/-- C1 amended, witnessed at scenario A (`top_warp = 0.008`). -/
theorem c1_top_z_extent_amended_witness :
    Valid pA ∧
      (((|pA.top_warp| ≤ 1e-9 → (meshDims (topMesh pA)).2.2 = pA.top_thickness) ∧
        (1e-9 < |pA.top_warp| →
          (meshDims (topMesh pA)).2.2 = pA.top_thickness + |pA.top_warp|)) ∧
        (validateTopLocalZ (topObj pA) pA = [] ↔ -1e-3 ≤ pA.top_warp)) :=
  ⟨valid_pA, c1_top_z_extent_amended pA valid_pA (by norm_num [pA])⟩

/-! ### C5 -/

lemma listSetEq_refl (A : List (ℝ × ℝ)) : listSetEq A A :=
  ⟨fun _ hv => hv, fun _ hv => hv⟩

/-- C5: the four legs' world XY positions are exactly the four sign
combinations `(± offset_x, ± offset_y)` — a rectangle symmetric about the
origin with the claimed half-widths — and the validator's unordered rounded
set comparison therefore adds no issue.  (Both sides hold for every parameter
set: the builder places the legs at these world positions and
`_parent_keep_world` preserves them.) -/
theorem c5_leg_world_positions (p : Params) :
    (buildAssembly p).legs.map (fun leg => (leg.location.1, leg.location.2.1))
      = [(offsetX p, offsetY p), (offsetX p, -offsetY p),
         (-offsetX p, offsetY p), (-offsetX p, -offsetY p)] ∧
      offsetX p = p.top_width * 0.5 - p.inset - p.leg_thickness * 0.5 ∧
      offsetY p = p.top_depth * 0.5 - p.inset - p.leg_thickness * 0.5 ∧
      validateCorners (buildAssembly p).legs p = [] := by
  refine ⟨rfl, rfl, rfl, ?_⟩
  have hmap : (buildAssembly p).legs.map legWorldXY = expectedXY p := rfl
  unfold validateCorners
  rw [hmap, if_neg (not_not_intro (listSetEq_refl _))]

/-! ### Scenario B evaluation (C6) -/

lemma legMeshHeightP_pB : legMeshHeightP pB = 0.67 := by
  unfold legMeshHeightP projectedFactor legHeight
  rw [show pB.leg_splay_deg = 0 from by norm_num [pB],
    show radians 0 = 0 by unfold radians; norm_num, Real.cos_zero, one_mul,
    max_eq_left (by norm_num)]
  norm_num [pB]

lemma topMesh_pB : topMesh pB =
    [(-0.6, -0.6, -0.04), (0.6, -0.6, -0.04), (-0.6, 0.6, -0.04), (0.6, 0.6, -0.04),
     (-0.6, -0.6, 0.04), (0.6, -0.6, 0.04), (-0.6, 0.6, 0.04), (0.6, 0.6, 0.04)] := by
  rw [topMesh_noWarp pB (by norm_num [pB]),
    show pB.top_width = 1.2 from rfl, show pB.top_depth = 1.2 from rfl,
    show pB.top_thickness = 0.08 from rfl, show pB.top_taper = 1.0 from rfl,
    taperMeshZ_cubeMesh 1.2 1.2 0.08 1.0 1.0 (by norm_num) (by norm_num)]
  norm_num

lemma meshDims_topMesh_pB : meshDims (topMesh pB) = (1.2, 1.2, 0.08) := by
  unfold meshDims
  rw [topMesh_pB]
  norm_num [xs, ys, zs, List.map, listMin, listMax, List.foldl, min_def, max_def]

lemma legTemplateMesh_pB : legTemplateMesh pB =
    [(-0.05, -0.05, -0.335), (0.05, -0.05, -0.335), (-0.05, 0.05, -0.335), (0.05, 0.05, -0.335),
     (-0.05, -0.05, 0.335), (0.05, -0.05, 0.335), (-0.05, 0.05, 0.335), (0.05, 0.05, 0.335)] := by
  unfold legTemplateMesh
  rw [show pB.leg_thickness = 0.10 from rfl, show pB.leg_taper = 1.0 from rfl,
    legMeshHeightP_pB,
    taperMeshZ_cubeMesh 0.10 0.10 0.67 1.0 1.0 (by norm_num) (by norm_num)]
  norm_num

lemma meshDims_legTemplate_pB : meshDims (legTemplateMesh pB) = (0.10, 0.10, 0.67) := by
  unfold meshDims
  rw [legTemplateMesh_pB]
  norm_num [xs, ys, zs, List.map, listMin, listMax, List.foldl, min_def, max_def]

lemma legSplayRotation_zero (x y : ℝ) : legSplayRotation x y 0 = (0, 0, 0) := by
  simp [legSplayRotation, copysign, radians]

lemma zTouch_pB : zTouchTolerance pB = 5e-3 := by
  unfold zTouchTolerance
  rw [show |pB.leg_splay_deg| = 0 by norm_num [pB, abs_zero],
    show radians 0 = 0 by unfold radians; norm_num, Real.sin_zero, mul_zero, zero_mul]
  exact max_eq_left (by norm_num)

/-- At scenario B (splay `0°`), every per-leg check passes for each of the
four legs regardless of its anchor. -/
lemma validateLeg_pB (i : Nat) (xy : ℝ × ℝ) :
    validateLeg pB (legMeshHeightP pB) "TableTop" (mkLeg pB i xy) = [] := by
  have hmesh : (mkLeg pB i xy).mesh = legTemplateMesh pB := rfl
  have hdims : meshDims (mkLeg pB i xy).mesh = (0.10, 0.10, 0.67) := by
    rw [hmesh, meshDims_legTemplate_pB]
  have hrot : (mkLeg pB i xy).rotation = (0, 0, 0) := by
    show legSplayRotation xy.1 xy.2 pB.leg_splay_deg = (0, 0, 0)
    rw [show pB.leg_splay_deg = (0 : ℝ) from by norm_num [pB]]
    exact legSplayRotation_zero xy.1 xy.2
  have hlocz : (mkLeg pB i xy).location.2.2 = 0.335 := by
    show legHeight pB / 2 = 0.335
    unfold legHeight
    norm_num [pB]
  have hwz : ∀ v : Vec3, worldZ (mkLeg pB i xy) v = 0.335 + v.2.2 := by
    intro v
    unfold worldZ
    rw [hrot, hlocz]
    simp [eulerRow3, Real.sin_zero, Real.cos_zero]
  have hbox : bboxWorldZExtents (mkLeg pB i xy) = (0, 0.67) := by
    have hcorners : boundBoxCorners (mkLeg pB i xy) =
        [(-0.05, -0.05, -0.335), (0.05, -0.05, -0.335), (-0.05, 0.05, -0.335),
         (0.05, 0.05, -0.335), (-0.05, -0.05, 0.335), (0.05, -0.05, 0.335),
         (-0.05, 0.05, 0.335), (0.05, 0.05, 0.335)] := by
      unfold boundBoxCorners
      rw [hmesh, legTemplateMesh_pB]
      norm_num [xs, ys, zs, List.map, listMin, listMax, List.foldl, min_def, max_def]
    unfold bboxWorldZExtents
    rw [hcorners]
    simp only [List.map, hwz]
    norm_num [listMin, listMax, List.foldl, min_def, max_def]
  unfold validateLeg
  rw [hdims, hbox, legMeshHeightP_pB, zTouch_pB]
  norm_num [close, pB, sub_self, abs_zero]
  rfl

/-- C6: at scenario B the build passes parameter validation and the validator
reports exactly the `leg_splay_deg >= 3.0` issue and the "no taper/warp
signal" issue, in source order, and nothing else. -/
theorem c6_scenario_b :
    paramCheck pB = none ∧
      validateTable (buildAssembly pB).tableTop (buildAssembly pB).legs pB
          (buildAssembly pB).leg_mesh_height
        = [Issue.splayRule, Issue.noSignal] := by
  refine ⟨paramCheck_pB, ?_⟩
  rw [show (buildAssembly pB).tableTop = topObj pB from rfl,
    show (buildAssembly pB).legs = legObjs pB from rfl,
    show (buildAssembly pB).leg_mesh_height = legMeshHeightP pB from rfl]
  have h1 : validateLegCount (legObjs pB) = [] := by
    simp [validateLegCount, legObjs]
  have h2 : validateTopLocalXY (topObj pB) pB = [] := by
    unfold validateTopLocalXY
    rw [show (topObj pB).mesh = topMesh pB from rfl, meshDims_topMesh_pB]
    norm_num [close, pB, sub_self, abs_zero]
  have h3 : validateTopLocalZ (topObj pB) pB = [] := by
    unfold validateTopLocalZ
    rw [show (topObj pB).mesh = topMesh pB from rfl, meshDims_topMesh_pB,
      show pB.top_warp = 0 from by norm_num [pB]]
    norm_num [close, pB, sub_self, abs_zero, max_self]
  have h4 : validateTopZ (topObj pB) pB = [] := by
    unfold validateTopZ
    rw [show (topObj pB).location.2.2 = pB.table_height - pB.top_thickness / 2 from rfl]
    norm_num [close, sub_self, abs_zero]
  have h5 : (List.map (validateLeg pB (legMeshHeightP pB) (topObj pB).name)
      (legObjs pB)).flatten = [] := by
    rw [show (topObj pB).name = "TableTop" from rfl]
    unfold legObjs
    simp only [List.map, validateLeg_pB]
    simp
  have h6 : validateCorners (legObjs pB) pB = [] := by
    unfold validateCorners
    rw [show (legObjs pB).map legWorldXY = expectedXY pB from rfl,
      if_neg (not_not_intro (listSetEq_refl _))]
  have h7 : validateStyle pB = [Issue.splayRule, Issue.noSignal] := by
    unfold validateStyle validateNoSignal
    norm_num [pB, min_self, abs_zero]
  unfold validateTable
  rw [h1, h2, h3, h4, h5, h6, h7]
  simp

/-- C10 witnessed at `top_warp = 1e-10` (scenario A otherwise). -/
theorem c10_warp_threshold_disagreement_witness :
    warpTopSurface (cubeMesh 1 1 1) (pW 1e-10).top_warp = cubeMesh 1 1 1 ∧
      (computeStyleMetrics (pW 1e-10)).non_boxy_feature_count
        = (computeStyleMetrics {pW 1e-10 with top_warp := 0}).non_boxy_feature_count + 1 ∧
      validateNoSignal (pW 1e-10) = validateNoSignal {pW 1e-10 with top_warp := 0} := by
  have h := c10_warp_threshold_disagreement (pW 1e-10)
    (by norm_num [pW, abs_pos]) (by norm_num [pW, abs_le])
  exact ⟨h.1 _, h.2.1, h.2.2⟩

end

end Table
